import Mathlib

/-!
Shallow embedding of the shopper-events ETL repository.

The embedded code:
* `src/etl_pipeline.py` — `ShopperETLPipeline.extract_from_s3`,
  `transform_events` (enrichment, session aggregation, product aggregation)
  and `validate_data_quality`.
* `src/data_generator.py` — `ShopperEventGenerator.generate_shopper_event`.

Spark dataframes are modelled as Lean lists of records; nullable columns are
`Option` fields; `DoubleType` money columns are modelled as `Rat`.  Spark
aggregation semantics (null-skipping `sum`/`avg`, null-ignoring
`countDistinct`, `first`, grouping that treats `null` as an ordinary key
value) are embedded explicitly below.
-/

namespace ETL

/-- A parsed timestamp value (Spark `TimestampType`). -/
structure Timestamp where
  year : Nat
  month : Nat
  day : Nat
  hour : Nat
  minute : Nat
  second : Nat
deriving DecidableEq, Repr

/-- A calendar date, the result of Spark `to_date` on a timestamp. -/
structure Date where
  year : Nat
  month : Nat
  day : Nat
deriving DecidableEq, Repr

/-- Spark `to_date(col("timestamp"))` on a non-null timestamp. -/
def to_date (t : Timestamp) : Date :=
  ⟨t.year, t.month, t.day⟩

/-- Split a character list on a separator character (the character-level
analogue of splitting a string on a one-character separator). -/
def splitOnChar (c : Char) : List Char → List (List Char)
  | [] => [[]]
  | a :: rest =>
    let r := splitOnChar c rest
    if a = c then [] :: r
    else
      match r with
      | [] => [[a]]
      | g :: gs => (a :: g) :: gs

/-- Whether a character is a decimal digit. -/
def isDigit (c : Char) : Bool :=
  ('0') ≤ c && c ≤ ('9')

/-- Read a nonempty all-digit character list as a natural number;
any other list fails. -/
def digitsToNat? (cs : List Char) : Option Nat :=
  match cs with
  | [] => none
  | _ =>
    cs.foldl
      (fun acc c =>
        match acc with
        | none => none
        | some n => if isDigit c then some (n * 10 + (c.toNat - 48)) else none)
      (some 0)

/-- Spark timestamp parsing of a JSON string field read with
`TimestampType`, for the canonical `YYYY-MM-DDTHH:MM:SS` layout (an
optional trailing `Z` is accepted).  A string that does not match the
layout, or whose fields are out of range, fails to parse and yields `none`
(Spark permissive mode: the value becomes null, no exception is raised). -/
def parseTimestamp (s : String) : Option Timestamp :=
  match splitOnChar ('T') s.data with
  | [d, tm] =>
    let tm := if tm.getLast? = some ('Z') then tm.dropLast else tm
    match splitOnChar ('-') d, splitOnChar (':') tm with
    | [ys, ms, ds], [hs, mins, ss] =>
      match digitsToNat? ys, digitsToNat? ms, digitsToNat? ds,
          digitsToNat? hs, digitsToNat? mins, digitsToNat? ss with
      | some y, some mo, some da, some h, some mi, some sec =>
        if 1 ≤ mo ∧ mo ≤ 12 ∧ 1 ≤ da ∧ da ≤ 31 ∧ h ≤ 23 ∧ mi ≤ 59 ∧ sec ≤ 59 then
          some ⟨y, mo, da, h, mi, sec⟩
        else none
      | _, _, _, _, _, _ => none
    | _, _ => none
  | _ => none

/-- One raw JSON record as it sits in S3, before the schema of
`extract_from_s3` is applied.  Every column of the schema is nullable
(`True` third argument of each `StructField`). -/
structure RawJsonEvent where
  event_id : Option String
  user_id : Option String
  session_id : Option String
  timestamp : Option String
  event_type : Option String
  product_id : Option String
  category : Option String
  price : Option Rat
  device_type : Option String
  ad_campaign_id : Option String
  revenue : Option Rat
deriving DecidableEq, Repr

/-- One row of the dataframe returned by `extract_from_s3`: the JSON record
with the `timestamp` column parsed to `TimestampType`.  An unparseable
timestamp string becomes null. -/
structure RawEvent where
  event_id : Option String
  user_id : Option String
  session_id : Option String
  timestamp : Option Timestamp
  event_type : Option String
  product_id : Option String
  category : Option String
  price : Option Rat
  device_type : Option String
  ad_campaign_id : Option String
  revenue : Option Rat
deriving DecidableEq, Repr

/-- `ShopperETLPipeline.extract_from_s3`: read the JSON records with the
fixed schema.  The only typed conversion is the `timestamp` column;
parsing failure yields a null value, never an error. -/
def extract_from_s3 (records : List RawJsonEvent) : List RawEvent :=
  records.map fun r =>
    { event_id := r.event_id
      user_id := r.user_id
      session_id := r.session_id
      timestamp := r.timestamp.bind parseTimestamp
      event_type := r.event_type
      product_id := r.product_id
      category := r.category
      price := r.price
      device_type := r.device_type
      ad_campaign_id := r.ad_campaign_id
      revenue := r.revenue }

/-- One row of `transformed_df` in `transform_events`: the raw event plus
the four derived columns.  `is_purchase` and `is_ad_driven` are the
integer `1`/`0` values produced by `when(...).otherwise(...)`. -/
structure EnrichedEvent where
  event_id : Option String
  user_id : Option String
  session_id : Option String
  timestamp : Option Timestamp
  event_type : Option String
  product_id : Option String
  category : Option String
  price : Option Rat
  device_type : Option String
  ad_campaign_id : Option String
  revenue : Option Rat
  date : Option Date
  hour : Option Nat
  is_purchase : Nat
  is_ad_driven : Nat
deriving DecidableEq, Repr

/-- The four `withColumn` derivations of `transform_events` on one row:
`date = to_date(timestamp)` and `hour = hour(timestamp)` are null on a
null timestamp; `is_purchase = when(event_type == "purchase", 1)
.otherwise(0)` (a null `event_type` compares as not-equal and yields 0);
`is_ad_driven = when(ad_campaign_id.isNotNull(), 1).otherwise(0)`. -/
def enrichEvent (e : RawEvent) : EnrichedEvent :=
  { event_id := e.event_id
    user_id := e.user_id
    session_id := e.session_id
    timestamp := e.timestamp
    event_type := e.event_type
    product_id := e.product_id
    category := e.category
    price := e.price
    device_type := e.device_type
    ad_campaign_id := e.ad_campaign_id
    revenue := e.revenue
    date := e.timestamp.map to_date
    hour := e.timestamp.map Timestamp.hour
    is_purchase := if e.event_type = some ("purchase") then 1 else 0
    is_ad_driven := if e.ad_campaign_id ≠ none then 1 else 0 }

/-- The enrichment stage of `transform_events` (construction of
`transformed_df`): a pure per-row map, one output row per input row. -/
def enrich (events : List RawEvent) : List EnrichedEvent :=
  events.map enrichEvent

/-- Spark `sum` over a nullable numeric column of a group: nulls are
skipped; if every value is null the aggregate itself is null. -/
def sparkSum (xs : List (Option Rat)) : Option Rat :=
  let vs := xs.filterMap id
  match vs with
  | [] => none
  | _ => some vs.sum

/-- Spark `avg` over a nullable numeric column of a group: nulls are
skipped; if every value is null the aggregate itself is null. -/
def sparkAvg (xs : List (Option Rat)) : Option Rat :=
  let vs := xs.filterMap id
  match vs with
  | [] => none
  | _ => some (vs.sum / (vs.length : Rat))

/-- Spark `countDistinct` over a nullable column of a group: the number of
distinct non-null values. -/
def sparkCountDistinct (xs : List (Option String)) : Nat :=
  ((xs.filterMap id).dedup).length

/-- Spark `first` over a column of a group: the value carried by the first
row of the group in iteration order (which may itself be null). -/
def sparkFirst (xs : List (Option String)) : Option String :=
  (xs.head?).join

/-- The grouping key of the session aggregation:
`groupBy("user_id", "session_id", "date")`.  Spark grouping treats a null
key column as an ordinary value (null keys group together). -/
structure SessionKey where
  user_id : Option String
  session_id : Option String
  date : Option Date
deriving DecidableEq, Repr

/-- The session grouping key of one enriched row. -/
def sessionKey (e : EnrichedEvent) : SessionKey :=
  ⟨e.user_id, e.session_id, e.date⟩

/-- One row of `session_metrics`. -/
structure SessionMetric where
  user_id : Option String
  session_id : Option String
  date : Option Date
  total_events : Nat
  purchases : Nat
  session_revenue : Option Rat
  unique_products_viewed : Nat
  device_type : Option String
deriving DecidableEq, Repr

/-- The `session_metrics` aggregation of `transform_events`: one output
row per distinct `(user_id, session_id, date)` key, with
`count("*")`, `sum("is_purchase")`, `sum("revenue")`,
`countDistinct("product_id")` and `first("device_type")` computed over the
rows of that group, the group listed in input iteration order. -/
def aggregateBySession (events : List EnrichedEvent) : List SessionMetric :=
  ((events.map sessionKey).dedup).map fun k =>
    let g := events.filter fun e => decide (sessionKey e = k)
    { user_id := k.user_id
      session_id := k.session_id
      date := k.date
      total_events := g.length
      purchases := (g.map EnrichedEvent.is_purchase).sum
      session_revenue := sparkSum (g.map EnrichedEvent.revenue)
      unique_products_viewed := sparkCountDistinct (g.map EnrichedEvent.product_id)
      device_type := sparkFirst (g.map EnrichedEvent.device_type) }

/-- The grouping key of the product aggregation:
`groupBy("product_id", "category", "date")`. -/
structure ProductKey where
  product_id : Option String
  category : Option String
  date : Option Date
deriving DecidableEq, Repr

/-- The product grouping key of one enriched row. -/
def productKey (e : EnrichedEvent) : ProductKey :=
  ⟨e.product_id, e.category, e.date⟩

/-- One row of `product_metrics`. -/
structure ProductMetric where
  product_id : Option String
  category : Option String
  date : Option Date
  total_views : Nat
  total_purchases : Nat
  total_revenue : Option Rat
  avg_price : Option Rat
  conversion_rate : Rat
deriving DecidableEq, Repr

/-- The `product_metrics` aggregation of `transform_events`: one output
row per distinct `(product_id, category, date)` key with `count("*")`,
`sum("is_purchase")`, `sum("revenue")` and `avg("price")`, followed by the
`withColumn` for `conversion_rate`:
`when(total_views > 0, total_purchases / total_views).otherwise(0)`. -/
def aggregateByProduct (events : List EnrichedEvent) : List ProductMetric :=
  ((events.map productKey).dedup).map fun k =>
    let g := events.filter fun e => decide (productKey e = k)
    let total_views := g.length
    let total_purchases := (g.map EnrichedEvent.is_purchase).sum
    { product_id := k.product_id
      category := k.category
      date := k.date
      total_views := total_views
      total_purchases := total_purchases
      total_revenue := sparkSum (g.map EnrichedEvent.revenue)
      avg_price := sparkAvg (g.map EnrichedEvent.price)
      conversion_rate :=
        if total_views > 0 then (total_purchases : Rat) / (total_views : Rat) else 0 }

/-- The whole `transform_events`: enrichment plus both aggregations,
returned as the dict of the three dataframes. -/
structure TransformResult where
  events : List EnrichedEvent
  session_metrics : List SessionMetric
  product_metrics : List ProductMetric
deriving Repr

/-- `ShopperETLPipeline.transform_events` on an extracted dataframe. -/
def transform_events (raw : List RawEvent) : TransformResult :=
  let transformed := enrich raw
  { events := transformed
    session_metrics := aggregateBySession transformed
    product_metrics := aggregateByProduct transformed }

/-- The result data of `validate_data_quality` when it does not raise:
the record count and the advisory null-`user_id` count it reports. -/
structure ValidationResult where
  totalRecords : Nat
  nullUserIdCount : Nat
deriving DecidableEq, Repr

/-- The one error `validate_data_quality` can raise
(`ValueError("No records found in dataset")`), named `EmptyBatch` as in
the specification's error taxonomy. -/
inductive ValidationError where
  | EmptyBatch
deriving DecidableEq, Repr

/-- `ShopperETLPipeline.validate_data_quality` on the transformed events
dataframe: counts the records and the rows with a null `user_id`; a
positive null count only produces an advisory warning; a zero record
count raises `ValueError`. -/
def validate_data_quality (events : List EnrichedEvent) :
    Except ValidationError ValidationResult :=
  let total_records := events.length
  let null_user_ids := (events.filter fun e => decide (e.user_id = none)).length
  if total_records = 0 then Except.error ValidationError.EmptyBatch
  else Except.ok ⟨total_records, null_user_ids⟩

/-- A `SessionMetric` with the `device_type` column dropped: the part of a
session row that does not depend on the iteration order of its group. -/
structure SessionMetricCore where
  user_id : Option String
  session_id : Option String
  date : Option Date
  total_events : Nat
  purchases : Nat
  session_revenue : Option Rat
  unique_products_viewed : Nat
deriving DecidableEq, Repr

/-- Drop the order-sensitive `device_type` column of a session row. -/
def dropDevice (m : SessionMetric) : SessionMetricCore :=
  ⟨m.user_id, m.session_id, m.date, m.total_events, m.purchases,
    m.session_revenue, m.unique_products_viewed⟩

end ETL

namespace Generator

/-- The fixed category list of `ShopperEventGenerator`. -/
def categories : List String :=
  ["Electronics", "Clothing", "Books", "Home", "Sports"]

/-- The fixed event-type list of `ShopperEventGenerator`. -/
def event_types : List String :=
  ["page_view", "add_to_cart", "purchase", "search", "ad_click"]

/-- The device-type list passed inline to `random.choice`. -/
def device_choices : List String :=
  ["mobile", "desktop", "tablet"]

/-- The nested `location` dict of a generated event. -/
structure Location where
  country : String
  city : String
  ip_address : String
deriving DecidableEq, Repr

/-- The values drawn from the random sources during one call of
`generate_shopper_event`, in program order: `randint(1000, 99999)` for the
user, two `fake.uuid4()` calls, `utcnow().isoformat()`, `random.choice`
over `event_types`, `randint(1, 10000)` for the product, `random.choice`
over `categories`, `round(uniform(10, 500), 2)` for the price (modelled as
the already-rounded sample), `random.choice` over the device list, the
three faker location fields, `random.random()` compared against `0.7`,
`randint(1, 100)` for the campaign, a second independent `random.choice`
over `event_types` inside the revenue expression, and
`round(uniform(0, 500), 2)` for the revenue amount. -/
structure GenDraws where
  userNum : Nat
  sessionUuid : String
  eventUuid : String
  nowIso : String
  eventTypeIdx : Fin 5
  productNum : Nat
  categoryIdx : Fin 5
  priceSample : Rat
  deviceIdx : Fin 3
  country : String
  city : String
  ipAddress : String
  adRoll : Rat
  campaignNum : Nat
  revenueTypeIdx : Fin 5
  revenueSample : Rat
deriving DecidableEq, Repr

/-- The dict built by `generate_shopper_event`. -/
structure GeneratedEvent where
  event_id : String
  user_id : String
  session_id : String
  timestamp : String
  event_type : String
  product_id : String
  category : String
  price : Rat
  device_type : String
  location : Location
  ad_campaign_id : Option String
  revenue : Rat
deriving DecidableEq, Repr

/-- `ShopperEventGenerator.generate_shopper_event` as a function of its
random draws.  `event_type` uses the first `random.choice` over
`event_types`, while `revenue` is conditioned on the SECOND, independent
`random.choice` over `event_types` — exactly as in the source line
`round(random.uniform(0, 500), 2) if random.choice(self.event_types) ==
'purchase' else 0`. -/
def generate_shopper_event (d : GenDraws) : GeneratedEvent :=
  { event_id := d.eventUuid
    user_id := ("user_") ++ toString d.userNum
    session_id := d.sessionUuid
    timestamp := d.nowIso
    event_type := event_types.getD d.eventTypeIdx.val ("")
    product_id := ("prod_") ++ toString d.productNum
    category := categories.getD d.categoryIdx.val ("")
    price := d.priceSample
    device_type := device_choices.getD d.deviceIdx.val ("")
    location := ⟨d.country, d.city, d.ipAddress⟩
    ad_campaign_id :=
      if d.adRoll > (7 : Rat) / 10 then
        some (("campaign_") ++ toString d.campaignNum)
      else none
    revenue :=
      if event_types.getD d.revenueTypeIdx.val ("") = ("purchase") then
        d.revenueSample
      else 0 }

end Generator

namespace ETL

/-- Test fixture: a raw page-view event (null money columns and null
timestamp keep every aggregate symbolic-arithmetic free). -/
def rPageView : RawEvent :=
  { event_id := some ("e1"), user_id := some ("u1"), session_id := some ("s1"),
    timestamp := none, event_type := some ("page_view"), product_id := some ("p1"),
    category := some ("Books"), price := none, device_type := some ("mobile"),
    ad_campaign_id := none, revenue := none }

/-- Test fixture: the single product metric produced by transforming
`[rPageView]`. -/
def mPageView : ProductMetric :=
  { product_id := some ("p1"), category := some ("Books"), date := none,
    total_views := 1, total_purchases := 0, total_revenue := none,
    avg_price := none, conversion_rate := 0 }

/-- Test fixture: a raw purchase event. -/
def rPurchase : RawEvent :=
  { event_id := some ("e4"), user_id := some ("u4"), session_id := some ("s4"),
    timestamp := none, event_type := some ("purchase"), product_id := some ("p4"),
    category := some ("Home"), price := none, device_type := some ("mobile"),
    ad_campaign_id := none, revenue := none }

/-- Test fixture: the single product metric produced by transforming
`[rPurchase]`. -/
def mPurchase : ProductMetric :=
  { product_id := some ("p4"), category := some ("Home"), date := none,
    total_views := 1, total_purchases := 1, total_revenue := none,
    avg_price := none, conversion_rate := 1 }

/-- Test fixture: an enriched event whose `user_id` is null. -/
def eNullUser : EnrichedEvent :=
  { event_id := some ("e9"), user_id := none, session_id := some ("s9"),
    timestamp := none, event_type := none, product_id := none, category := none,
    price := none, device_type := none, ad_campaign_id := none, revenue := none,
    date := none, hour := none, is_purchase := 0, is_ad_driven := 0 }

/-- Test fixture: a raw JSON record whose `timestamp` string cannot be
parsed as a date-time. -/
def jBadTs : RawJsonEvent :=
  { event_id := some ("e2"), user_id := some ("u2"), session_id := some ("s2"),
    timestamp := some ("not-a-date"), event_type := some ("page_view"),
    product_id := some ("p2"), category := some ("Books"), price := none,
    device_type := some ("desktop"), ad_campaign_id := none, revenue := none }

/-- Test fixture: the extracted form of `jBadTs` — the unparseable
timestamp has become null. -/
def rBadTs : RawEvent :=
  { event_id := some ("e2"), user_id := some ("u2"), session_id := some ("s2"),
    timestamp := none, event_type := some ("page_view"), product_id := some ("p2"),
    category := some ("Books"), price := none, device_type := some ("desktop"),
    ad_campaign_id := none, revenue := none }

/-- Test fixture: a raw event whose `ad_campaign_id` is the empty string —
present (non-null) but empty. -/
def rEmptyAd : RawEvent :=
  { event_id := some ("e3"), user_id := some ("u3"), session_id := some ("s3"),
    timestamp := none, event_type := some ("ad_click"), product_id := some ("p3"),
    category := some ("Books"), price := none, device_type := some ("tablet"),
    ad_campaign_id := some (""), revenue := none }

/-- Test fixture: an enriched page-view event on a mobile device. -/
def evA : EnrichedEvent :=
  { event_id := some ("a"), user_id := some ("u1"), session_id := some ("s1"),
    timestamp := none, event_type := some ("page_view"), product_id := some ("p1"),
    category := some ("Books"), price := none, device_type := some ("mobile"),
    ad_campaign_id := none, revenue := none, date := none, hour := none,
    is_purchase := 0, is_ad_driven := 0 }

/-- Test fixture: a purchase event in the same session as `evA` but on a
desktop device, so the two orders of the pair disagree on the
`first("device_type")` pick. -/
def evB : EnrichedEvent :=
  { evA with
    event_id := some ("b")
    event_type := some ("purchase")
    device_type := some ("desktop")
    is_purchase := 1 }

end ETL

namespace Generator

/-- Test fixture: random draws for `generate_shopper_event` in which the
first `random.choice(self.event_types)` picks `page_view` (index 0) while
the second, independent choice inside the revenue expression picks
`purchase` (index 2), with a revenue sample of 100. -/
def mismatchDraws : GenDraws :=
  { userNum := 1000, sessionUuid := ("11111111-1111-1111-1111-111111111111"),
    eventUuid := ("22222222-2222-2222-2222-222222222222"),
    nowIso := ("2024-06-01T10:00:00"), eventTypeIdx := 0, productNum := 1,
    categoryIdx := 0, priceSample := 10, deviceIdx := 0, country := ("US"),
    city := ("Austin"), ipAddress := ("192.0.2.1"), adRoll := 0, campaignNum := 1,
    revenueTypeIdx := 2, revenueSample := 100 }

end Generator

namespace ETL

/-- Summing the group sizes of a grouping over the distinct keys gives
back the length of the grouped list. -/
theorem sum_group_sizes {α κ : Type} [DecidableEq κ] (key : α → κ) (l : List α) :
    (((l.map key).dedup).map fun k =>
      (l.filter fun a => decide (key a = k)).length).sum = l.length := by
  have h := List.sum_map_count_dedup_eq_length (l.map key)
  rw [List.length_map] at h
  rw [← h]
  apply congrArg List.sum
  apply List.map_congr_left
  intro k _
  rw [← List.countP_eq_length_filter, List.count_eq_countP, List.countP_map]
  rfl

end ETL


namespace ETL

/-- C4: for every finite input sequence of enriched events, the sum of
`total_events` over all `SessionMetric` records produced by the session
aggregation equals the number of input events. -/
theorem session_total_events_sum (events : List EnrichedEvent) :
    ((aggregateBySession events).map SessionMetric.total_events).sum = events.length := by
  unfold aggregateBySession
  rw [List.map_map]
  exact sum_group_sizes sessionKey events

/-- C5: for every finite input sequence of enriched events, the sum of
`total_views` over all `ProductMetric` records produced by the product
aggregation equals the number of input events. -/
theorem product_total_views_sum (events : List EnrichedEvent) :
    ((aggregateByProduct events).map ProductMetric.total_views).sum = events.length := by
  unfold aggregateByProduct
  rw [List.map_map]
  exact sum_group_sizes productKey events

/-- C8: the empty input yields the empty output for enrichment, session
aggregation and product aggregation alike; all three are total functions
of the input list, so no error is possible. -/
theorem empty_input_empty_output :
    enrich [] = [] ∧ aggregateBySession [] = [] ∧ aggregateByProduct [] = [] :=
  ⟨rfl, rfl, rfl⟩

/-- A permutation of the input leaves the null-skipping Spark sum of a
column unchanged. -/
theorem sparkSum_perm {xs ys : List (Option Rat)} (h : List.Perm xs ys) :
    sparkSum xs = sparkSum ys := by
  have h2 : List.Perm (xs.filterMap id) (ys.filterMap id) := h.filterMap id
  unfold sparkSum
  cases hx : xs.filterMap id with
  | nil =>
    have hy : ys.filterMap id = [] := by
      rw [hx] at h2
      exact List.length_eq_zero.1 (h2.length_eq.symm.trans rfl)
    simp only [hx, hy]
  | cons a as =>
    cases hy : ys.filterMap id with
    | nil =>
      rw [hx, hy] at h2
      exact absurd h2.length_eq (by simp)
    | cons b bs =>
      rw [hx, hy] at h2
      simp only [hx, hy]
      rw [h2.sum_eq]

/-- A permutation of the input leaves the distinct non-null count of a
column unchanged. -/
theorem sparkCountDistinct_perm {xs ys : List (Option String)} (h : List.Perm xs ys) :
    sparkCountDistinct xs = sparkCountDistinct ys :=
  ((h.filterMap id).dedup).length_eq

/-- Mapping pointwise-equal functions over permuted lists yields permuted
lists. -/
theorem perm_map_congr {α β : Type} {l l' : List α} {f g : α → β}
    (h : List.Perm l l') (hfg : ∀ a, f a = g a) : List.Perm (l.map f) (l'.map g) := by
  have hfg2 : f = g := funext hfg
  rw [hfg2]
  exact h.map g

/-- C9: for every input sequence of enriched events and every permutation
of it, the session aggregation produces the same multiset of
`SessionMetric` records once the order-sensitive `device_type` column
(taken by `first` from the group's head in iteration order) is dropped. -/
theorem aggregateBySession_perm_invariant {l l' : List EnrichedEvent}
    (h : List.Perm l l') :
    List.Perm ((aggregateBySession l).map dropDevice)
      ((aggregateBySession l').map dropDevice) := by
  unfold aggregateBySession
  rw [List.map_map, List.map_map]
  refine perm_map_congr ((h.map sessionKey).dedup) (fun k => ?_)
  have hg := h.filter (fun e => decide (sessionKey e = k))
  simp only [Function.comp_apply, dropDevice]
  congr 1
  · exact hg.length_eq
  · exact (hg.map EnrichedEvent.is_purchase).sum_eq
  · exact sparkSum_perm (hg.map EnrichedEvent.revenue)
  · exact sparkCountDistinct_perm (hg.map EnrichedEvent.product_id)

/-- Witness for C9: a concrete two-event session whose two orders produce
permuted (here equal up to order) device-free session metrics. -/
theorem aggregateBySession_perm_invariant_witness :
    List.Perm [evA, evB] [evB, evA] ∧
    List.Perm ((aggregateBySession [evA, evB]).map dropDevice)
      ((aggregateBySession [evB, evA]).map dropDevice) :=
  ⟨by decide, aggregateBySession_perm_invariant (by decide)⟩

/-- The derived `is_purchase` flag of an enriched event is zero or one. -/
theorem is_purchase_le_one (r : RawEvent) : (enrichEvent r).is_purchase ≤ 1 := by
  simp only [enrichEvent]
  split <;> simp

/-- Every distinct product key of an enriched batch has a nonempty group,
and the purchase count of the group is at most its size. -/
theorem product_group_bounds (raw : List RawEvent) (k : ProductKey)
    (hk : k ∈ ((enrich raw).map productKey).dedup) :
    1 ≤ ((enrich raw).filter fun e => decide (productKey e = k)).length ∧
    (((enrich raw).filter fun e => decide (productKey e = k)).map
        EnrichedEvent.is_purchase).sum
      ≤ ((enrich raw).filter fun e => decide (productKey e = k)).length := by
  constructor
  · rw [← List.countP_eq_length_filter]
    obtain ⟨e, he, hke⟩ := List.mem_map.1 (List.mem_dedup.1 hk)
    exact List.countP_pos_iff.2 ⟨e, he, decide_eq_true hke⟩
  · have hb : ∀ x ∈ ((enrich raw).filter fun e => decide (productKey e = k)).map
        EnrichedEvent.is_purchase, x ≤ 1 := by
      intro x hx
      obtain ⟨e, he, rfl⟩ := List.mem_map.1 hx
      obtain ⟨r, _, rfl⟩ := List.mem_map.1 (List.mem_of_mem_filter he)
      exact is_purchase_le_one r
    have h2 := List.sum_le_card_nsmul _ 1 hb
    simpa using h2

/-- Shape of every product metric the pipeline produces: at least one view
per group, no more purchases than views, and the guarded-division formula
for `conversion_rate`. -/
theorem product_metric_shape {raw : List RawEvent} {m : ProductMetric}
    (hm : m ∈ (transform_events raw).product_metrics) :
    1 ≤ m.total_views ∧ m.total_purchases ≤ m.total_views ∧
    m.conversion_rate =
      if 0 < m.total_views then (m.total_purchases : Rat) / (m.total_views : Rat) else 0 := by
  have hm2 : m ∈ aggregateByProduct (enrich raw) := hm
  rw [aggregateByProduct] at hm2
  obtain ⟨k, hk, rfl⟩ := List.mem_map.1 hm2
  have hb := product_group_bounds raw k hk
  exact ⟨hb.1, hb.2, rfl⟩

/-- C2: every `ProductMetric` the pipeline produces has
`conversion_rate = total_purchases / total_views` when `total_views > 0`,
`conversion_rate = 0` when `total_views = 0`, and the rate always lies in
`[0, 1]`; the computation is a total function (guarded division, no
failure and no NaN or infinity in the exact-rational model). -/
theorem conversion_rate_correct (raw : List RawEvent) (m : ProductMetric)
    (hm : m ∈ (transform_events raw).product_metrics) :
    (0 < m.total_views →
      m.conversion_rate = (m.total_purchases : Rat) / (m.total_views : Rat)) ∧
    (m.total_views = 0 → m.conversion_rate = 0) ∧
    0 ≤ m.conversion_rate ∧ m.conversion_rate ≤ 1 := by
  obtain ⟨h1, h2, h3⟩ := product_metric_shape hm
  refine ⟨fun hv => by rw [h3, if_pos hv], fun hv => by rw [h3, hv]; simp, ?_, ?_⟩
  · rw [h3]
    split
    · positivity
    · exact le_refl 0
  · rw [h3]
    split
    · rename_i hv
      rw [div_le_one (by exact_mod_cast hv)]
      exact_mod_cast h2
    · exact zero_le_one

/-- Witness for C2: the single-page-view batch yields a metric with
conversion rate `0 / 1 = 0`, inside `[0, 1]`. -/
theorem conversion_rate_correct_witness :
    mPageView.conversion_rate =
      (mPageView.total_purchases : Rat) / (mPageView.total_views : Rat) ∧
    0 ≤ mPageView.conversion_rate ∧ mPageView.conversion_rate ≤ 1 :=
  have hm : mPageView ∈ (transform_events [rPageView]).product_metrics := by
    simp [transform_events, aggregateByProduct, enrich, enrichEvent, productKey,
      sparkSum, sparkAvg, mPageView, rPageView]
  ⟨(conversion_rate_correct [rPageView] mPageView hm).1 (by decide),
    (conversion_rate_correct [rPageView] mPageView hm).2.2.1,
    (conversion_rate_correct [rPageView] mPageView hm).2.2.2⟩

/-- C10: every `ProductMetric` the pipeline produces satisfies
`total_views ≥ 1` and `total_purchases ≤ total_views` (each output group
holds at least one event and purchases count a subset of it), so
`conversion_rate` always comes from the positive-views branch of the
guard. -/
theorem product_metric_group_bounds (raw : List RawEvent) (m : ProductMetric)
    (hm : m ∈ (transform_events raw).product_metrics) :
    1 ≤ m.total_views ∧ m.total_purchases ≤ m.total_views ∧
    m.conversion_rate = (m.total_purchases : Rat) / (m.total_views : Rat) := by
  obtain ⟨h1, h2, h3⟩ := product_metric_shape hm
  have hpos : 0 < m.total_views := h1
  exact ⟨h1, h2, by rw [h3, if_pos hpos]⟩

/-- Witness for C10: the single-purchase batch yields a metric with one
view, one purchase and conversion rate `1 / 1`. -/
theorem product_metric_group_bounds_witness :
    1 ≤ mPurchase.total_views ∧ mPurchase.total_purchases ≤ mPurchase.total_views ∧
    mPurchase.conversion_rate =
      (mPurchase.total_purchases : Rat) / (mPurchase.total_views : Rat) :=
  product_metric_group_bounds [rPurchase] mPurchase (by
    simp [transform_events, aggregateByProduct, enrich, enrichEvent, productKey,
      sparkSum, sparkAvg, mPurchase, rPurchase])

/-- C3: `validate_data_quality` fails with `EmptyBatch` exactly when the
record count is zero, and on success it reports the total record count and
the advisory count of records whose `user_id` is null — a null `user_id`
never by itself causes failure. -/
theorem validateBatch_emptyBatch_iff (events : List EnrichedEvent) :
    (validate_data_quality events = Except.error ValidationError.EmptyBatch ↔
      events.length = 0) ∧
    (∀ r : ValidationResult, validate_data_quality events = Except.ok r →
      r.totalRecords = events.length ∧
      r.nullUserIdCount = (events.filter fun e => decide (e.user_id = none)).length) := by
  constructor
  · unfold validate_data_quality
    by_cases h : events.length = 0 <;> simp [h]
  · intro r hr
    unfold validate_data_quality at hr
    by_cases h : events.length = 0
    · rw [if_pos h] at hr
      cases hr
    · rw [if_neg h] at hr
      cases hr
      exact ⟨rfl, rfl⟩

/-- Witness for C3: a one-record batch whose single record has a null
`user_id` validates successfully, with the null counted and reported. -/
theorem validateBatch_emptyBatch_iff_witness :
    (⟨1, 1⟩ : ValidationResult).totalRecords = ([eNullUser] : List EnrichedEvent).length ∧
    (⟨1, 1⟩ : ValidationResult).nullUserIdCount =
      (([eNullUser] : List EnrichedEvent).filter fun e => decide (e.user_id = none)).length :=
  (validateBatch_emptyBatch_iff [eNullUser]).2 ⟨1, 1⟩ rfl

/-- Counterexample for C1 as stated: the batch `[jBadTs]` contains an
event whose timestamp cannot be parsed, yet enrichment does not reject the
batch — extraction nulls the timestamp and one enriched output record is
produced, contradicting "no enriched output is produced for any record of
that batch". -/
theorem malformed_timestamp_batch_not_rejected_cex :
    parseTimestamp ("not-a-date") = none ∧
    ((extract_from_s3 [jBadTs]).map RawEvent.timestamp = [none]) ∧
    (enrich (extract_from_s3 [jBadTs])).length = 1 ∧
    (transform_events (extract_from_s3 [jBadTs])).events.length = 1 :=
  ⟨by decide, by decide, rfl, rfl⟩

/-- C1 amended: enrichment never fails on a malformed timestamp; it
produces exactly one enriched record per input record, and a record whose
timestamp failed to parse (null after extraction) gets null `date` and
null `hour`. -/
theorem enrichment_never_rejects (records : List RawJsonEvent) :
    (enrich (extract_from_s3 records)).length = records.length ∧
    ∀ e ∈ extract_from_s3 records, e.timestamp = none →
      (enrichEvent e).date = none ∧ (enrichEvent e).hour = none := by
  constructor
  · simp [enrich, extract_from_s3]
  · intro e _ ht
    simp [enrichEvent, ht]

/-- Witness for the amended C1: the bad-timestamp batch keeps its one
record, whose derived date and hour are null. -/
theorem enrichment_never_rejects_witness :
    (enrich (extract_from_s3 [jBadTs])).length = ([jBadTs] : List RawJsonEvent).length ∧
    ((enrichEvent rBadTs).date = none ∧ (enrichEvent rBadTs).hour = none) :=
  ⟨(enrichment_never_rejects [jBadTs]).1,
    (enrichment_never_rejects [jBadTs]).2 rBadTs (by decide) rfl⟩

/-- Counterexample for C6 as stated: on an event whose `ad_campaign_id`
is the empty string (non-null but empty), the code sets `is_ad_driven`
to 1, so "true iff neither null nor empty" fails. -/
theorem is_ad_driven_empty_string_cex :
    ¬ ((enrichEvent rEmptyAd).is_ad_driven = 1 ↔
        (rEmptyAd.ad_campaign_id ≠ none ∧ rEmptyAd.ad_campaign_id ≠ some (""))) := by
  decide

/-- C6 amended: `is_ad_driven` is 1 exactly when `ad_campaign_id` is
non-null; an empty-string campaign id still counts as ad-driven because
the code only tests `isNotNull`. -/
theorem is_ad_driven_iff_not_null (e : RawEvent) :
    (enrichEvent e).is_ad_driven = 1 ↔ e.ad_campaign_id ≠ none := by
  simp only [enrichEvent]
  split <;> simp_all

end ETL

namespace Generator

/-- C7: the generator violates the `revenue > 0 → event_type = purchase`
invariant — at the concrete draws `mismatchDraws` it emits a `page_view`
event with revenue 100, because the revenue expression re-samples
`event_type` independently of the event's own `event_type` field. -/
theorem generator_revenue_invariant_violated :
    (generate_shopper_event mismatchDraws).event_type = ("page_view") ∧
    (generate_shopper_event mismatchDraws).revenue = 100 ∧
    0 < (generate_shopper_event mismatchDraws).revenue ∧
    (generate_shopper_event mismatchDraws).event_type ≠ ("purchase") :=
  ⟨rfl, rfl, by decide, by decide⟩

end Generator
